import Mathlib

/-!
Verification of the procedure call-interface lowering engine
(flang/lib/Lower/CallInterface.cpp).

The definitions below are a shallow embedding of the decision engine that
computes a procedure physical calling convention from its characteristics.
Each definition is translated from the corresponding source function; a few
helpers that live in external flang libraries (Evaluate characteristics,
FIR type factories) are modelled from the spec and carry a doc comment
starting with "Modelled from the spec:".
-/

namespace CallInterfaceModel

/-! ## Characteristics model (input data) -/

/-- Fortran type categories (Fortran::common::TypeCategory). -/
inductive TypeCategory where
  | integer
  | real
  | complex
  | logical
  | character
  | derived
deriving DecidableEq, Repr

/-- Dummy-argument intent (Fortran::common::Intent). -/
inductive Intent where
  | default
  | in_
  | out
  | inout
deriving DecidableEq, Repr

/-- External description of a derived type specification
(semantics::DerivedTypeSpec); the queries the lowering performs on it
(IsVectorType, IsFinalizable, CountLenParameters, builtin c_ptr test) are
recorded as fields since their computation is external to this file. -/
structure DerivedTypeSpec where
  name : String
  isVectorType : Bool := false
  isFinalizable : Bool := false
  lenParameters : Nat := 0
  isBuiltinCPtr : Bool := false
deriving DecidableEq, Repr

/-- evaluate::DynamicType: category, kind, optional compile-time-constant
character length (toInt64 of GetCharLength folded), derived spec and
polymorphism flags. -/
structure DynamicType where
  category : TypeCategory
  kind : Nat := 4
  knownLength : Option Int := none
  derivedSpec : Option DerivedTypeSpec := none
  polymorphic : Bool := false
  unlimitedPolymorphic : Bool := false
  assumedType : Bool := false
deriving DecidableEq, Repr

/-- GetDerivedTypeSpec() on a DynamicType of Derived category. -/
def DynamicType.getDerivedTypeSpec (dt : DynamicType) : DerivedTypeSpec :=
  dt.derivedSpec.getD { name := "" }

/-- evaluate::GetDerivedTypeSpec on a DynamicType: the derived spec when the
category is Derived, absent otherwise. -/
def DynamicType.derivedTypeSpecIfAny (dt : DynamicType) : Option DerivedTypeSpec :=
  match dt.category with
  | .derived => dt.derivedSpec
  | _ => none

/-- TypeAndShape shape attributes (characteristics::TypeAndShape::Attr). -/
structure ShapeAttrs where
  assumedShape : Bool := false
  assumedSize : Bool := false
  assumedRank : Bool := false
  deferredShape : Bool := false
deriving DecidableEq, Repr

/-- attrs().any(): at least one shape attribute is set. -/
def ShapeAttrs.anyAttr (a : ShapeAttrs) : Bool :=
  a.assumedShape || a.assumedSize || a.assumedRank || a.deferredShape

/-- characteristics::TypeAndShape. The shape is an optional list of extents
(each extent already folded to an optional integer: none when not a
compile-time constant); an empty present shape denotes a scalar, an absent
shape denotes assumed rank. -/
structure TypeAndShape where
  type : DynamicType
  shape : Option (List (Option Int)) := some []
  attrs : ShapeAttrs := {}
  corank : Nat := 0
deriving DecidableEq, Repr

/-- TypeAndShape::Rank(). -/
def TypeAndShape.rank (ts : TypeAndShape) : Nat :=
  (ts.shape.getD []).length

/-- DummyDataObject attributes (characteristics::DummyDataObject::Attr). -/
structure DummyAttrs where
  optional : Bool := false
  allocatable : Bool := false
  asynchronous : Bool := false
  contiguous : Bool := false
  value : Bool := false
  volatile : Bool := false
  pointer : Bool := false
  target : Bool := false
deriving DecidableEq, Repr

/-- characteristics::DummyDataObject. -/
structure DummyDataObject where
  type : TypeAndShape
  intent : Intent := .default
  attrs : DummyAttrs := {}
deriving DecidableEq, Repr

/-- Function-result attributes (characteristics::FunctionResult::Attr). -/
structure ResultAttrs where
  allocatable : Bool := false
  pointer : Bool := false
  contiguous : Bool := false
deriving DecidableEq, Repr

/-- characteristics::FunctionResult: either a procedure pointer or a
type-and-shape with attributes. GetTypeAndShape() is null exactly on the
procedure-pointer alternative. -/
inductive FunctionResult where
  | procedurePointer
  | typeAndShape (ts : TypeAndShape) (attrs : ResultAttrs)
deriving DecidableEq, Repr

/-- GetTypeAndShape() on a FunctionResult. -/
def FunctionResult.getTypeAndShape : FunctionResult → Option TypeAndShape
  | .procedurePointer => none
  | .typeAndShape ts _ => some ts

/-- The nested characteristics of a dummy procedure, flattened to the fields
this translation unit reads from it (its function result). -/
structure DummyProcIface where
  functionResult : Option FunctionResult := none
  bindC : Bool := false
deriving DecidableEq, Repr

/-- characteristics::DummyProcedure. -/
structure DummyProcedure where
  procedure : DummyProcIface := {}
  intent : Intent := .default
  pointer : Bool := false
  optional : Bool := false
deriving DecidableEq, Repr

/-- characteristics::DummyArgument: tagged union of a data object, a dummy
procedure, and an alternate-return marker. -/
inductive DummyArgument where
  | dataObject (name : String) (obj : DummyDataObject)
  | procedure (name : String) (proc : DummyProcedure)
  | alternateReturn
deriving DecidableEq, Repr

/-- DummyArgument::GetIntent. -/
def DummyArgument.getIntent : DummyArgument → Intent
  | .dataObject _ o => o.intent
  | .procedure _ p => p.intent
  | .alternateReturn => .default

/-- DummyArgument::IsOptional. -/
def DummyArgument.isOptional : DummyArgument → Bool
  | .dataObject _ o => o.attrs.optional
  | .procedure _ p => p.optional
  | .alternateReturn => false

/-- Modelled from the spec: DummyDataObject::CanBePassedViaImplicitInterface
is defined in the flang Evaluate library, which is not part of this
repository sample. Per the spec (4.1), the implicit path handles a dummy
under legacy positional rules: no attributes, default intent, no shape
attributes, no polymorphism, no coindexing. -/
def DummyDataObject.canBePassedViaImplicitInterface (o : DummyDataObject) : Bool :=
  o.attrs == {} && o.intent == .default && !o.type.attrs.anyAttr &&
  !o.type.type.polymorphic && !o.type.type.unlimitedPolymorphic &&
  o.type.corank == 0

/-- Modelled from the spec: 4.2 "if the result could still use the implicit
representation (simple scalar, no allocatable or pointer attribute) it falls
back to the implicit result rule" (FunctionResult::
CanBeReturnedViaImplicitInterface is defined in the flang Evaluate library,
not part of this repository sample). -/
def FunctionResult.canBeReturnedViaImplicitInterface : FunctionResult → Bool
  | .procedurePointer => false
  | .typeAndShape ts attrs =>
    attrs == {} && ts.shape == some [] && !ts.type.polymorphic &&
    !ts.type.unlimitedPolymorphic

/-- Whether a dummy argument can be passed under legacy positional rules. -/
def DummyArgument.canBePassedViaImplicitInterface : DummyArgument → Bool
  | .dataObject _ o => o.canBePassedViaImplicitInterface
  | .procedure _ p => !p.pointer && !p.optional
  | .alternateReturn => true

/-- characteristics::Procedure: optional result, ordered dummy arguments and
procedure flags. The hasExplicitInterface flag records the semantic
ImplicitInterface attribute computed upstream. -/
structure Procedure where
  functionResult : Option FunctionResult := none
  dummyArguments : List DummyArgument := []
  bindC : Bool := false
  pure_ : Bool := false
  elemental : Bool := false
  hasExplicitInterface : Bool := true
deriving DecidableEq, Repr

/-- Modelled from the spec: Procedure::CanBeCalledViaImplicitInterface is
defined in the flang Evaluate library, not part of this repository sample.
Per the spec, the implicit path is selected when the procedure can be called
under legacy positional rules, and a foreign-interoperable interface is "a
sub-dialect of explicit interfaces" (glossary), so BIND(C) and elemental
procedures are excluded, and the result and every dummy must be
implicit-compatible. -/
def Procedure.canBeCalledViaImplicitInterface (p : Procedure) : Bool :=
  !p.bindC && !p.elemental &&
  (match p.functionResult with
   | none => true
   | some r => r.canBeReturnedViaImplicitInterface) &&
  p.dummyArguments.all (fun d => d.canBePassedViaImplicitInterface)

/-! ## Physical (MLIR/FIR) type model -/

/-- The MLIR types this translation unit builds. Sequence bounds are extents
folded to optional integers (none denotes an unknown extent); a character
length of none denotes fir unknown length. The boxproc constructor keeps the
inner function type abstract, matching getProcedureDesignatorType which
always produces the untyped boxproc type. -/
inductive MType where
  | scalar (cat : TypeCategory) (kind : Nat)
  | char (kind : Nat) (len : Option Int)
  | record (spec : DerivedTypeSpec)
  | noneTy
  | seq (shape : List (Option Int)) (elem : MType)
  | ref (isVolatile : Bool) (elem : MType)
  | heap (elem : MType)
  | ptr (elem : MType)
  | box (elem : MType)
  | clazz (elem : MType)
  | boxchar (kind : Nat)
  | boxproc
  | index
  | tuple2 (a b : MType)
deriving DecidableEq, Repr

/-- CallInterfaceImpl::translateDynamicType: derived types map to their
record type (none type when unlimited polymorphic), character maps to the
character type with its compile-time length when constant, anything else to
the scalar type of its category and kind. -/
def translateDynamicType (dt : DynamicType) : MType :=
  match dt.category with
  | .derived =>
    if dt.unlimitedPolymorphic then .noneTy
    else .record dt.getDerivedTypeSpec
  | .character => .char dt.kind dt.knownLength
  | c => .scalar c dt.kind

/-- CallInterfaceImpl::getBounds: none for scalars, an empty vector for
assumed rank, and the folded extents for arrays. -/
def getBounds (ts : TypeAndShape) : Option (List (Option Int)) :=
  match ts.shape with
  | some [] => none
  | some l => some l
  | none => some []

/-- Modelled from the spec: fir::wrapInClassOrBoxType lives in the FIR
optimizer support library, not part of this repository sample. Per the spec
glossary a box is the runtime descriptor; polymorphic entities use the class
variant. -/
def wrapInClassOrBoxType (t : MType) (isPolymorphic isAssumedType : Bool) : MType :=
  if isPolymorphic then .clazz t
  else if isAssumedType then .box .noneTy
  else .box t

/-- fir::isa_char: the type is a scalar fir character type. -/
def isaChar : MType → Bool
  | .char _ _ => true
  | _ => false

/-- fir::isa_builtin_cptr_type on the translated type. -/
def isaBuiltinCptrType : MType → Bool
  | .record s => s.isBuiltinCPtr
  | _ => false

/-- The single field type of the builtin c_ptr record (its address field, an
integer); used when a VALUE c_ptr argument is degraded to its scalar field. -/
def cptrFieldType : MType := .scalar .integer 8

/-- Modelled from the spec: fir::factory::getCharacterProcedureTupleType
(FIR builder library, not part of this repository sample) packs the callable
address with the result length in one tuple. -/
def getCharacterProcedureTupleType (funcTy : MType) : MType :=
  .tuple2 funcTy .index

/-- getProcedureDesignatorType: always the untyped boxproc type. -/
def getProcedureDesignatorType : MType := .boxproc

/-! ## Physical slot table and builder state -/

/-- Owner of a physical slot: the reserved result marker or the ordinal of
the passed entity (FirPlaceHolder::passedEntityPosition, where the header
reserves a marker value for the result). -/
inductive EntityPos where
  | result
  | arg (n : Nat)
deriving DecidableEq, Repr

/-- Passing-property tag of a physical slot (CallInterface::Property). -/
inductive Property where
  | value
  | baseAddress
  | boxChar
  | box
  | mutableBox
  | charAddress
  | charLength
  | charProcTuple
  | boxProcRef
deriving DecidableEq, Repr

/-- How a logical entity is passed (CallInterface::PassEntityBy). -/
inductive PassEntityBy where
  | value
  | baseAddress
  | baseAddressValueAttribute
  | charBoxValueAttribute
  | boxChar
  | box
  | mutableBox
  | addressAndLength
  | charProcTuple
  | boxProcRef
deriving DecidableEq, Repr

/-- One physical slot (CallInterface::FirPlaceHolder). Attributes are kept
as the list of attribute names attached to the slot. -/
structure FirPlaceHolder where
  type : MType
  passedEntityPosition : EntityPos
  property : Property
  attributes : List String := []
deriving DecidableEq, Repr

/-- Caller-side entity description: the actual-argument flags and name this
translation unit reads from the entity (isPercentVal / isPercentRef and the
symbol name used for the name attribute). -/
structure ArgEntity where
  percentVal : Bool := false
  percentRef : Bool := false
  name : Option String := none
deriving DecidableEq, Repr

/-- CallInterface::PassedEntity (caller flavor: slot indices are integers
initialized to -1 until mapPassedEntities runs). -/
structure PassedEntity where
  passBy : PassEntityBy
  entity : Option ArgEntity := none
  firArgument : Int := -1
  firLength : Int := -1
  characteristics : Option DummyArgument := none
deriving DecidableEq, Repr

/-- The mutable part of a CallInterface populated by the builder. -/
structure CallInterfaceState where
  inputs : List FirPlaceHolder := []
  outputs : List FirPlaceHolder := []
  passedArguments : List PassedEntity := []
  passedResult : Option PassedEntity := none
  saveResult : Bool := false
deriving DecidableEq, Repr

/-- CallInterfaceImpl::addFirOperand. -/
def addFirOperand (st : CallInterfaceState) (type : MType) (pos : EntityPos)
    (p : Property) (attributes : List String := []) : CallInterfaceState :=
  { st with inputs := st.inputs ++ [⟨type, pos, p, attributes⟩] }

/-- CallInterfaceImpl::addFirResult. -/
def addFirResult (st : CallInterfaceState) (type : MType) (pos : EntityPos)
    (p : Property) (attributes : List String := []) : CallInterfaceState :=
  { st with outputs := st.outputs ++ [⟨type, pos, p, attributes⟩] }

/-- CallInterfaceImpl::addPassedArg. -/
def addPassedArg (st : CallInterfaceState) (p : PassEntityBy)
    (entity : Option ArgEntity) (ch : Option DummyArgument) : CallInterfaceState :=
  { st with passedArguments :=
      st.passedArguments ++ [{ passBy := p, entity := entity, characteristics := ch }] }

/-- CallInterfaceImpl::setPassedResult. -/
def setPassedResult (st : CallInterfaceState) (p : PassEntityBy)
    (entity : Option ArgEntity) : CallInterfaceState :=
  { st with passedResult := some { passBy := p, entity := entity } }

/-- CallInterfaceImpl::setSaveResult. -/
def setSaveResult (st : CallInterfaceState) : CallInterfaceState :=
  { st with saveResult := true }

/-- CallInterfaceImpl::nextPassedArgPosition. -/
def nextPassedArgPosition (st : CallInterfaceState) : EntityPos :=
  .arg st.passedArguments.length

/-! ## Interface builder -/

/-- Which side adapter drives the builder; the source dispatches on the
concrete side type with if-constexpr. -/
inductive SideKind where
  | caller
  | callee
  | signature
deriving DecidableEq, Repr

/-- The lowering options consulted by this translation unit. -/
structure LoweringOptions where
  lowerToHighLevelFIR : Bool := true
deriving DecidableEq, Repr

/-- CallInterfaceImpl::dummyNameAttr: a name attribute on the callee side
when the dummy symbol is available, nothing otherwise. -/
def dummyNameAttr (side : SideKind) (ent : ArgEntity) : List String :=
  match side, ent.name with
  | .callee, some _ => ["fir.bindc_name"]
  | _, _ => []

/-- getResultDynamicType: the dynamic type of the function result when it
has a type and shape. -/
def DummyProcIface.getResultDynamicType (p : DummyProcIface) : Option DynamicType :=
  (p.functionResult.bind FunctionResult.getTypeAndShape).map TypeAndShape.type

/-- CallInterfaceImpl::mustPassLengthWithDummyProcedure: true exactly when
the dummy procedure result is character-typed. -/
def mustPassLengthWithDummyProcedure (p : DummyProcIface) : Bool :=
  match p.getResultDynamicType with
  | some t => t.category == .character
  | none => false

/-- CallInterfaceImpl::handleImplicitCharacterResult: record the result as
passed by address and length, append the hidden character-address and
length input slots, and also return the packed boxchar output. -/
def handleImplicitCharacterResult (st : CallInterfaceState) (ty : DynamicType) :
    CallInterfaceState :=
  let st := setPassedResult st .addressAndLength none
  let charRefTy : MType := .ref false (.char ty.kind ty.knownLength)
  let st := addFirOperand st charRefTy .result .charAddress
  let st := addFirOperand st .index .result .charLength
  addFirResult st (.boxchar ty.kind) .result .boxChar

/-- genType(category, kind) of the abstract converter. -/
def genTypeCatKind (cat : TypeCategory) (kind : Nat) : MType :=
  match cat with
  | .character => .char kind none
  | c => .scalar c kind

/-- CallInterfaceImpl::handleImplicitResult. -/
def handleImplicitResult (st : CallInterfaceState) (result : FunctionResult)
    (isBindC : Bool) : CallInterfaceState :=
  match result with
  | .procedurePointer => addFirResult st .boxproc .result .value
  | .typeAndShape ts _attrs =>
    let dynamicType := ts.type
    match dynamicType.category with
    | .character =>
      if isBindC then
        addFirResult st (translateDynamicType dynamicType) .result .value
      else
        handleImplicitCharacterResult st dynamicType
    | .derived =>
      let st :=
        if !dynamicType.getDerivedTypeSpec.isVectorType then setSaveResult st
        else st
      addFirResult st (translateDynamicType dynamicType) .result .value
    | cat => addFirResult st (genTypeCatKind cat dynamicType.kind) .result .value

/-- CallInterfaceImpl::getRefType. -/
def getRefType (dynamicType : DynamicType) (obj : DummyDataObject) : MType :=
  let type := translateDynamicType dynamicType
  let type := match getBounds obj.type with
    | some bounds => .seq bounds type
    | none => type
  .ref false type

/-- CallInterfaceImpl::handleImplicitDummy for a data-object dummy: honor
percent-val and percent-ref on caller actual arguments, pass character data
as boxchar, and everything else by base address. -/
def handleImplicitDummyObj (side : SideKind) (st : CallInterfaceState)
    (ch : Option DummyArgument) (obj : DummyDataObject) (ent : ArgEntity) :
    CallInterfaceState :=
  let dynamicType := obj.type.type
  if side == .caller && ent.percentVal then
    let st := addFirOperand st (translateDynamicType dynamicType)
      (nextPassedArgPosition st) .value (dummyNameAttr side ent)
    addPassedArg st .value (some ent) ch
  else if side == .caller && ent.percentRef then
    let st := addFirOperand st (getRefType dynamicType obj)
      (nextPassedArgPosition st) .baseAddress (dummyNameAttr side ent)
    addPassedArg st .baseAddress (some ent) ch
  else if dynamicType.category == .character then
    let st := addFirOperand st (.boxchar dynamicType.kind)
      (nextPassedArgPosition st) .boxChar (dummyNameAttr side ent)
    addPassedArg st .boxChar (some ent) ch
  else
    let st := addFirOperand st (getRefType dynamicType obj)
      (nextPassedArgPosition st) .baseAddress (dummyNameAttr side ent)
    addPassedArg st .baseAddress (some ent) ch

/-- The MLIR attribute names attached to an explicit dummy
(CallInterfaceImpl::handleExplicitDummy attribute gathering). -/
def explicitDummyAttrNames (side : SideKind) (obj : DummyDataObject)
    (ent : ArgEntity) : List String :=
  dummyNameAttr side ent ++
  (if obj.attrs.optional then ["fir.optional"] else []) ++
  (if obj.attrs.contiguous then ["fir.contiguous"] else []) ++
  (if obj.attrs.asynchronous then ["fir.asynchronous"] else []) ++
  (if obj.attrs.target then ["fir.target"] else [])

/-- Modelled from the spec: DummyDataObject::IsPassedByDescriptor is defined
in the flang Evaluate library, not part of this repository sample. Per the
spec decision table, descriptor passing is required for assumed shape or
rank, deferred shape and polymorphic or assumed-type dummies. -/
def DummyDataObject.isPassedByDescriptor (obj : DummyDataObject)
    (_isBindC : Bool) : Bool :=
  obj.type.attrs.assumedShape || obj.type.attrs.assumedRank ||
  obj.type.attrs.deferredShape || obj.type.type.polymorphic ||
  obj.type.type.unlimitedPolymorphic || obj.type.type.assumedType

/-- CallInterfaceImpl::handleExplicitDummy: the explicit-path decision chain
for a data-object dummy. Coarray dummies hit a not-yet-implemented fatal. -/
def handleExplicitDummy (opts : LoweringOptions) (side : SideKind)
    (st : CallInterfaceState) (ch : Option DummyArgument)
    (obj : DummyDataObject) (ent : ArgEntity) (isBindC : Bool) :
    Except String CallInterfaceState :=
  let isValueAttr := obj.attrs.value
  let attrs := explicitDummyAttrNames side obj ent
  if obj.type.corank > 0 then
    .error "coarray: dummy argument coarray in procedure interface"
  else
    let dynamicType := obj.type.type
    let type := translateDynamicType dynamicType
    let type := match getBounds obj.type with
      | some bounds => .seq bounds type
      | none => type
    let type := if obj.attrs.allocatable then .heap type else type
    let type := if obj.attrs.pointer then .ptr type else type
    let boxType := wrapInClassOrBoxType type dynamicType.polymorphic
      dynamicType.assumedType
    if obj.attrs.allocatable || obj.attrs.pointer then
      let boxRefType : MType := .ref obj.attrs.volatile boxType
      let st := addFirOperand st boxRefType (nextPassedArgPosition st)
        .mutableBox attrs
      .ok (addPassedArg st .mutableBox (some ent) ch)
    else if obj.isPassedByDescriptor isBindC then
      if isValueAttr && !opts.lowerToHighLevelFIR then
        .error "assumed shape dummy argument with VALUE attribute"
      else
        let st := addFirOperand st boxType (nextPassedArgPosition st) .box attrs
        .ok (addPassedArg st .box (some ent) ch)
    else if dynamicType.category == .character then
      if isValueAttr && isBindC then
        let charTy : MType := .char dynamicType.kind (some 1)
        let st := addFirOperand st charTy (nextPassedArgPosition st) .value attrs
        .ok (addPassedArg st .value (some ent) ch)
      else
        let boxCharTy : MType := .boxchar dynamicType.kind
        let st := addFirOperand st boxCharTy (nextPassedArgPosition st)
          .boxChar attrs
        .ok (addPassedArg st
          (if isValueAttr then .charBoxValueAttribute else .boxChar)
          (some ent) ch)
    else
      let passType : MType := .ref false type
      let isBuiltinCptrType := isaBuiltinCptrType type
      let takeValue := isValueAttr &&
        (isBindC ||
         (!(match type with | .seq _ _ => true | _ => false) &&
          !obj.attrs.optional &&
          (dynamicType.category != .derived || isBuiltinCptrType)))
      let passType :=
        if takeValue then
          if isBuiltinCptrType then MType.ref false cptrFieldType else type
        else passType
      let passBy :=
        if takeValue then PassEntityBy.value
        else if isValueAttr then PassEntityBy.baseAddressValueAttribute
        else PassEntityBy.baseAddress
      let prop := if takeValue then Property.value else Property.baseAddress
      let st := addFirOperand st passType (nextPassedArgPosition st) prop attrs
      .ok (addPassedArg st passBy (some ent) ch)

/-- CallInterfaceImpl::handleImplicitDummy for a dummy procedure: procedure
pointers are passed as a reference to a boxproc, character-result dummy
procedures as one address-and-length tuple, everything else by base
address. -/
def handleImplicitDummyProc (opts : LoweringOptions) (st : CallInterfaceState)
    (ch : Option DummyArgument) (proc : DummyProcedure) (ent : ArgEntity) :
    Except String CallInterfaceState :=
  if !opts.lowerToHighLevelFIR && proc.pointer then
    .error "procedure pointer arguments"
  else
    let funcType := getProcedureDesignatorType
    if proc.pointer then
      let refType : MType := .ref false funcType
      let st := addFirOperand st refType (nextPassedArgPosition st) .boxProcRef
      .ok (addPassedArg st .boxProcRef (some ent) ch)
    else
      let resultTy := proc.procedure.getResultDynamicType
      if resultTy.isSome && mustPassLengthWithDummyProcedure proc.procedure then
        let tupleType := getCharacterProcedureTupleType funcType
        let st := addFirOperand st tupleType (nextPassedArgPosition st)
          .charProcTuple ["fir.char_proc"]
        .ok (addPassedArg st .charProcTuple (some ent) ch)
      else
        let st := addFirOperand st funcType (nextPassedArgPosition st)
          .baseAddress
        .ok (addPassedArg st .baseAddress (some ent) ch)

/-- CallInterfaceImpl::handleExplicitResult. -/
def handleExplicitResult (st : CallInterfaceState) (result : FunctionResult) :
    CallInterfaceState :=
  match result with
  | .procedurePointer => addFirResult st .boxproc .result .value
  | .typeAndShape ts attrs =>
    let mlirType := translateDynamicType ts.type
    let resIsPolymorphic := ts.type.polymorphic
    let resIsAssumedType := ts.type.assumedType
    let mlirType := match getBounds ts with
      | some bounds => .seq bounds mlirType
      | none => mlirType
    let mlirType :=
      if attrs.allocatable then
        wrapInClassOrBoxType (.heap mlirType) resIsPolymorphic resIsAssumedType
      else mlirType
    let mlirType :=
      if attrs.pointer then
        wrapInClassOrBoxType (.ptr mlirType) resIsPolymorphic resIsAssumedType
      else mlirType
    if isaChar mlirType then
      handleImplicitCharacterResult st ts.type
    else
      setSaveResult (addFirResult st mlirType .result .value)

/-- One step of the implicit-path argument loop. -/
def implicitDummyStep (opts : LoweringOptions) (side : SideKind)
    (st : CallInterfaceState) (pair : DummyArgument × ArgEntity) :
    Except String CallInterfaceState :=
  match pair.1 with
  | .dataObject _ obj => .ok (handleImplicitDummyObj side st (some pair.1) obj pair.2)
  | .procedure _ p => handleImplicitDummyProc opts st (some pair.1) p pair.2
  | .alternateReturn => .ok st

/-- CallInterfaceImpl::buildImplicitInterface. -/
def buildImplicitInterface (opts : LoweringOptions) (side : SideKind)
    (hasAlternateReturns : Bool) (proc : Procedure) (entities : List ArgEntity)
    (st : CallInterfaceState) : Except String CallInterfaceState :=
  let st := match proc.functionResult with
    | some result => handleImplicitResult st result proc.bindC
    | none =>
      if hasAlternateReturns then addFirResult st .index .result .value else st
  (proc.dummyArguments.zip entities).foldlM (implicitDummyStep opts side) st

/-- One step of the explicit-path argument loop. -/
def explicitDummyStep (opts : LoweringOptions) (side : SideKind) (isBindC : Bool)
    (st : CallInterfaceState) (pair : DummyArgument × ArgEntity) :
    Except String CallInterfaceState :=
  match pair.1 with
  | .dataObject _ obj =>
    if !isBindC && obj.canBePassedViaImplicitInterface then
      .ok (handleImplicitDummyObj side st (some pair.1) obj pair.2)
    else
      handleExplicitDummy opts side st (some pair.1) obj pair.2 isBindC
  | .procedure _ p => handleImplicitDummyProc opts st (some pair.1) p pair.2
  | .alternateReturn => .ok st

/-- CallInterfaceImpl::buildExplicitInterface. -/
def buildExplicitInterface (opts : LoweringOptions) (side : SideKind)
    (hasAlternateReturns : Bool) (proc : Procedure) (entities : List ArgEntity)
    (st : CallInterfaceState) : Except String CallInterfaceState :=
  let isBindC := proc.bindC
  let st := match proc.functionResult with
    | some result =>
      if result.canBeReturnedViaImplicitInterface then
        handleImplicitResult st result isBindC
      else
        handleExplicitResult st result
    | none =>
      if hasAlternateReturns then addFirResult st .index .result .value else st
  (proc.dummyArguments.zip entities).foldlM (explicitDummyStep opts side isBindC) st

/-- CallInterfaceImpl::appendHostAssocTupleArg. -/
def appendHostAssocTupleArg (st : CallInterfaceState) (tupTy : MType) :
    CallInterfaceState :=
  let st := addFirOperand st tupTy (nextPassedArgPosition st) .baseAddress
    ["fir.host_assoc"]
  { st with passedArguments :=
      st.passedArguments ++ [{ passBy := .baseAddress }] }

/-- CallInterface::determineInterface: run the implicit or the explicit
builder, then, on the callee side only, append the host-association tuple
argument when the procedure needs access to host-captured state. -/
def determineInterface (opts : LoweringOptions) (side : SideKind)
    (hasAlternateReturns : Bool) (hostAssocTy : Option MType) (isImplicit : Bool)
    (proc : Procedure) (entities : List ArgEntity) :
    Except String CallInterfaceState := do
  let st ←
    if isImplicit then
      buildImplicitInterface opts side hasAlternateReturns proc entities {}
    else
      buildExplicitInterface opts side hasAlternateReturns proc entities {}
  match side, hostAssocTy with
  | .callee, some tupTy => pure (appendHostAssocTupleArg st tupTy)
  | _, _ => pure st

/-! ## PassedEntity queries -/

/-- CallInterface::PassedEntity::isOptional. -/
def PassedEntity.isOptional (pe : PassedEntity) : Bool :=
  match pe.characteristics with
  | none => false
  | some ch => ch.isOptional

/-- CallInterface::PassedEntity::mayBeModifiedByCall. -/
def PassedEntity.hasValueAttribute (pe : PassedEntity) : Bool :=
  match pe.characteristics with
  | none => false
  | some (.dataObject _ o) => o.attrs.value
  | some _ => false

/-- CallInterface::PassedEntity::mayBeModifiedByCall: conservatively true
without characteristics, false for intent-in, otherwise true unless the
dummy carries the VALUE attribute. -/
def PassedEntity.mayBeModifiedByCall (pe : PassedEntity) : Bool :=
  match pe.characteristics with
  | none => true
  | some ch =>
    if ch.getIntent == .in_ then false
    else !pe.hasValueAttribute

/-- CallInterface::PassedEntity::mayBeReadByCall. -/
def PassedEntity.mayBeReadByCall (pe : PassedEntity) : Bool :=
  match pe.characteristics with
  | none => true
  | some ch => ch.getIntent != .out

/-- CallInterface::PassedEntity::isIntentOut. -/
def PassedEntity.isIntentOut (pe : PassedEntity) : Bool :=
  match pe.characteristics with
  | none => true
  | some ch => ch.getIntent == .out

/-- CallInterface::PassedEntity::hasAllocatableAttribute. -/
def PassedEntity.hasAllocatableAttribute (pe : PassedEntity) : Bool :=
  match pe.characteristics with
  | none => false
  | some (.dataObject _ o) => o.attrs.allocatable
  | some _ => false

/-- CallInterface::PassedEntity::mayRequireIntentoutFinalization:
conservative without characteristics; only intent-out dummies qualify;
allocatable and pointer dummies never require entry finalization;
polymorphic dummies may; otherwise finalization is needed exactly when the
derived type is finalizable. -/
def PassedEntity.mayRequireIntentoutFinalization (pe : PassedEntity) : Bool :=
  match pe.characteristics with
  | none => true
  | some ch =>
    if !pe.isIntentOut then false
    else
      match ch with
      | .dataObject _ dummy =>
        if dummy.attrs.allocatable || dummy.attrs.pointer then false
        else if dummy.type.type.polymorphic ||
                dummy.type.type.unlimitedPolymorphic then true
        else
          match dummy.type.type.derivedTypeSpecIfAny with
          | none => false
          | some derived => derived.isFinalizable
      | _ => true

/-! ## Caller side -/

/-- One actual argument at a call site: an alternate return, or an
expression together with the dummy characteristic computed from the actual
by DummyArgument::FromActual (supplied by semantic analysis). -/
inductive ActualArgument where
  | alternateReturn
  | expr (fromActual : DummyArgument)
deriving DecidableEq, Repr

/-- asImplicitArg on a data object: the attribute must be dropped and the
shape, if any, made explicit; when a shape attribute is present the shape is
flattened to a rank-only explicit shape of unknown extents. -/
def asImplicitArgObj (dummy : DummyDataObject) : DummyDataObject :=
  let shape :=
    if !dummy.type.attrs.anyAttr then dummy.type.shape
    else some (List.replicate dummy.type.rank none)
  { type := { type := dummy.type.type, shape := shape } }

/-- asImplicitArg on a dummy argument: rebuild data objects, keep dummy
procedures and alternate-return markers. -/
def asImplicitArg : DummyArgument → DummyArgument
  | .dataObject name obj => .dataObject name (asImplicitArgObj obj)
  | .procedure name p => .procedure name p
  | .alternateReturn => .alternateReturn

/-- CallerInterface::characterize: start from the characteristic computed
from the procedure designator; when the procedure has no explicit interface,
or (under high-level FIR lowering) is an external defined in the same
compilation unit that can be called via an implicit interface, discard the
dummy characteristics from the definition and rebuild one dummy per present
actual argument, in argument order. -/
def characterize (opts : LoweringOptions) (defCharacteristic : Procedure)
    (isExternalDefinedInSameCompilationUnit : Bool)
    (actuals : List (Option ActualArgument)) : Procedure :=
  if !defCharacteristic.hasExplicitInterface ||
     (opts.lowerToHighLevelFIR && isExternalDefinedInSameCompilationUnit &&
      defCharacteristic.canBeCalledViaImplicitInterface) then
    let rebuilt := actuals.foldl (fun acc arg =>
      match arg with
      | none => acc
      | some .alternateReturn => acc ++ [DummyArgument.alternateReturn]
      | some (.expr ch) => acc ++ [asImplicitArg ch]) []
    { defCharacteristic with dummyArguments := rebuilt }
  else
    defCharacteristic

/-- The caller-side interface object: the generic state plus the incremental
value cells for the actual inputs (mlir values modelled as integers). -/
structure CallerInterface where
  st : CallInterfaceState := {}
  actualInputs : List (Option Int) := []
deriving DecidableEq, Repr

/-- CallerInterface::getNumFIRArguments. Modelled from the spec: the
accessor is declared in the interface header, which is not part of this
repository sample; per the spec it is the number of physical input slots. -/
def CallerInterface.getNumFIRArguments (c : CallerInterface) : Nat :=
  c.st.inputs.length

/-- CallerInterface::verifyActualInputs: the cell count must equal the
physical input-slot count and every cell must hold a value. -/
def CallerInterface.verifyActualInputs (c : CallerInterface) : Bool :=
  if c.getNumFIRArguments != c.actualInputs.length then false
  else c.actualInputs.all Option.isSome

/-! ## Callee side -/

/-- The function operation: its entry blocks (each a list of block-argument
values) and its signature. -/
structure FunctionType where
  inputTypes : List MType := []
  resultTypes : List MType := []
deriving DecidableEq, Repr

/-- genFunctionType: the physical signature read off the slot table. -/
def genFunctionType (st : CallInterfaceState) : FunctionType :=
  { inputTypes := st.inputs.map FirPlaceHolder.type,
    resultTypes := st.outputs.map FirPlaceHolder.type }

/-- An mlir function operation: its blocks (a block is its list of argument
values) and its type. -/
structure FuncOp where
  blocks : List (List Int) := []
  funcType : FunctionType := {}
deriving DecidableEq, Repr

/-- Update one list element in place. -/
def modifyAt {α : Type} (l : List α) (n : Nat) (f : α → α) : List α :=
  match l, n with
  | [], _ => []
  | x :: xs, 0 => f x :: xs
  | x :: xs, n + 1 => x :: modifyAt xs n f

/-- Record a physical value into a passed entity: length slots fill the
length index, every other slot fills the argument index. -/
def PassedEntity.setFirValue (prop : Property) (v : Int) (pe : PassedEntity) :
    PassedEntity :=
  if prop == .charLength then { pe with firLength := v }
  else { pe with firArgument := v }

/-- CallInterface::mapBackInputToPassedEntity. -/
def mapBackInputToPassedEntity (st : CallInterfaceState) (ph : FirPlaceHolder)
    (v : Int) : CallInterfaceState :=
  match ph.passedEntityPosition with
  | .result =>
    { st with passedResult := st.passedResult.map (PassedEntity.setFirValue ph.property v) }
  | .arg n =>
    { st with passedArguments :=
        modifyAt st.passedArguments n (PassedEntity.setFirValue ph.property v) }

/-- CallInterface::mapPassedEntities: bind each physical parameter position
back to its passed entity, in input-slot order. -/
def mapPassedEntities (st : CallInterfaceState) (values : List Int) :
    CallInterfaceState :=
  (st.inputs.zip values).foldl (fun s p => mapBackInputToPassedEntity s p.1 p.2) st

/-- The callee-side interface object. -/
structure CalleeInterface where
  func : FuncOp := {}
  st : CallInterfaceState := {}
deriving DecidableEq, Repr

/-- CalleeInterface::addEntryBlockAndMapArguments: a procedure body is
lowered exactly once; a function whose body was already populated is a
front-end bug and a fatal error. Otherwise one entry block is appended with
one block argument per input slot and the arguments are mapped back to the
passed entities. -/
def addEntryBlockAndMapArguments (c : CalleeInterface) :
    Except String CalleeInterface :=
  if !c.func.blocks.isEmpty then
    .error "cannot process subprogram that was already processed"
  else
    let entryArgs := (List.range c.st.inputs.length).map Int.ofNat
    .ok { func := { c.func with blocks := [entryArgs] },
          st := mapPassedEntities c.st entryArgs }

/-! ## Signature-only builder -/

/-- The fake entities of the signature-only builder: one placeholder per
dummy argument, with no caller or callee information. -/
def fakeEntities (proc : Procedure) : List ArgEntity :=
  List.replicate proc.dummyArguments.length {}

/-- SignatureBuilder: translates a characteristics value to a function type
with no bound entities; the interfaceDetermined flag guards one-shot use. -/
structure SignatureBuilder where
  proc : Procedure
  hasProcDesignator : Bool := false
  specificIntrinsic : Bool := false
  interfaceDetermined : Bool := false
deriving DecidableEq, Repr

/-- SignatureBuilder::hasAlternateReturns. -/
def SignatureBuilder.hasAlternateReturns (sb : SignatureBuilder) : Bool :=
  sb.proc.dummyArguments.any (fun d =>
    match d with
    | .alternateReturn => true
    | _ => false)

/-- SignatureBuilder::getFunctionType: fatal on reuse; otherwise determine
the interface (forcing the implicit path for specific intrinsics), mark the
builder used and return the translated signature. -/
def SignatureBuilder.getFunctionType (opts : LoweringOptions)
    (sb : SignatureBuilder) : Except String (FunctionType × SignatureBuilder) :=
  if sb.interfaceDetermined then
    .error "SignatureBuilder should only be used once"
  else
    let forceImplicit := sb.hasProcDesignator && sb.specificIntrinsic
    let isImplicit := forceImplicit || sb.proc.canBeCalledViaImplicitInterface
    match determineInterface opts .signature sb.hasAlternateReturns none
        isImplicit sb.proc (fakeEntities sb.proc) with
    | .error e => .error e
    | .ok st =>
      .ok (genFunctionType st, { sb with interfaceDetermined := true })

/-- SignatureBuilder::getOrCreateFuncOp: fatal on reuse; otherwise declare
the function (determine the interface and create the function operation),
mark the builder used and return the function. -/
def SignatureBuilder.getOrCreateFuncOp (opts : LoweringOptions)
    (sb : SignatureBuilder) : Except String (FuncOp × SignatureBuilder) :=
  if sb.interfaceDetermined then
    .error "SignatureBuilder should only be used once"
  else
    match determineInterface opts .signature sb.hasAlternateReturns none
        sb.proc.canBeCalledViaImplicitInterface sb.proc (fakeEntities sb.proc) with
    | .error e => .error e
    | .ok st =>
      .ok ({ blocks := [], funcType := genFunctionType st },
           { sb with interfaceDetermined := true })

/-! ## Shared lemmas -/

theorem bindC_eq_false_of_implicit (p : Procedure)
    (h : p.canBeCalledViaImplicitInterface = true) : p.bindC = false := by
  unfold Procedure.canBeCalledViaImplicitInterface at h
  rcases Bool.and_eq_true_iff.mp h with ⟨h1, _⟩
  rcases Bool.and_eq_true_iff.mp h1 with ⟨h2, _⟩
  rcases Bool.and_eq_true_iff.mp h2 with ⟨h3, _⟩
  simpa using h3

/-! ## Claim theorems -/

/-- C6: verifyActualInputs returns true exactly when the number of caller
value cells equals the number of physical input slots and every cell holds
a value; any empty cell or count mismatch makes it return false. -/
theorem c6_verify_actual_inputs_iff (c : CallerInterface) :
    c.verifyActualInputs = true ↔
      (c.st.inputs.length = c.actualInputs.length ∧
       ∀ a ∈ c.actualInputs, a.isSome) := by
  unfold CallerInterface.verifyActualInputs CallerInterface.getNumFIRArguments
  constructor
  · intro h
    split at h
    · exact absurd h (by simp)
    · next hne =>
      refine ⟨by simpa using hne, ?_⟩
      intro a ha
      exact List.all_eq_true.mp h a ha
  · rintro ⟨hlen, hall⟩
    rw [hlen, if_neg (by simp)]
    exact List.all_eq_true.mpr hall

/-- C4: calling the callee-side entry-block creation and argument mapping a
second time, on a function whose body has already been populated, is a
fatal failure; no second entry block is ever appended. -/
theorem c4_entry_block_twice_fatal (c : CalleeInterface)
    (h : c.func.blocks ≠ []) :
    addEntryBlockAndMapArguments c =
      .error "cannot process subprogram that was already processed" := by
  unfold addEntryBlockAndMapArguments
  simp [h]

theorem c4_entry_block_twice_fatal_witness :
    (CalleeInterface.mk { blocks := [[0]] } {}).func.blocks ≠ [] ∧
    addEntryBlockAndMapArguments (CalleeInterface.mk { blocks := [[0]] } {}) =
      .error "cannot process subprogram that was already processed" :=
  ⟨by decide,
   c4_entry_block_twice_fatal (CalleeInterface.mk { blocks := [[0]] } {})
     (by decide)⟩

/-- C10: a character-typed result on the implicit-result path of a
foreign-interoperable procedure is returned as one Value output slot of the
translated character type; no hidden address or length input slot is
appended and the result keeps no passed-entity record. -/
theorem c10_bindc_character_result (st : CallInterfaceState)
    (ts : TypeAndShape) (rattrs : ResultAttrs)
    (hchar : ts.type.category = .character) :
    (handleImplicitResult st (.typeAndShape ts rattrs) true).inputs =
      st.inputs ∧
    (handleImplicitResult st (.typeAndShape ts rattrs) true).outputs =
      st.outputs ++ [⟨translateDynamicType ts.type, .result, .value, []⟩] ∧
    (handleImplicitResult st (.typeAndShape ts rattrs) true).passedResult =
      st.passedResult ∧
    (handleImplicitResult st (.typeAndShape ts rattrs) true).saveResult =
      st.saveResult := by
  unfold handleImplicitResult
  simp [hchar, addFirResult]

theorem c10_bindc_character_result_witness :
    (⟨{ type := { category := .character, kind := 1 } }, {}⟩ :
        TypeAndShape × ResultAttrs).1.type.category = TypeCategory.character ∧
    (handleImplicitResult {}
        (.typeAndShape { type := { category := .character, kind := 1 } } {})
        true).inputs = ([] : List FirPlaceHolder) :=
  ⟨by decide,
   (c10_bindc_character_result {} { type := { category := .character, kind := 1 } }
      {} rfl).1⟩

/-- C1: on the explicit path, a data-object dummy carrying the Allocatable
or the Pointer attribute is passed MutableBox with exactly one input slot, a
reference to a box cell, whatever its type, shape, VALUE attribute, intent
or the interoperability dialect; the rule fires before every other rule of
the decision chain. -/
theorem c1_allocatable_pointer_mutable_box (opts : LoweringOptions)
    (side : SideKind) (st : CallInterfaceState) (ch : Option DummyArgument)
    (obj : DummyDataObject) (ent : ArgEntity) (isBindC : Bool)
    (halloc : obj.attrs.allocatable = true ∨ obj.attrs.pointer = true)
    (hcorank : obj.type.corank = 0) :
    ∃ boxTy : MType,
      handleExplicitDummy opts side st ch obj ent isBindC =
        .ok { st with
          inputs := st.inputs ++ [⟨.ref obj.attrs.volatile boxTy,
            .arg st.passedArguments.length, .mutableBox,
            explicitDummyAttrNames side obj ent⟩],
          passedArguments := st.passedArguments ++
            [{ passBy := .mutableBox, entity := some ent,
               characteristics := ch }] } := by
  unfold handleExplicitDummy
  rw [hcorank]
  have hcond : (obj.attrs.allocatable || obj.attrs.pointer) = true := by
    rcases halloc with h | h <;> simp [h]
  simp only [hcond]
  exact ⟨_, rfl⟩

/-- A concrete allocatable integer dummy used to instantiate the
allocatable-rule theorem. -/
def c1Obj : DummyDataObject :=
  { type := { type := { category := .integer } },
    attrs := { allocatable := true } }

theorem c1_allocatable_pointer_mutable_box_witness :
    c1Obj.attrs.allocatable = true ∧
    ∃ boxTy : MType,
      handleExplicitDummy {} .caller {} none c1Obj {} false =
        .ok { ({} : CallInterfaceState) with
          inputs := [] ++ [⟨.ref c1Obj.attrs.volatile boxTy, .arg 0,
            .mutableBox, explicitDummyAttrNames .caller c1Obj ({} : ArgEntity)⟩],
          passedArguments := [] ++ [{ passBy := .mutableBox, entity := some ({} : ArgEntity), characteristics := none }] } :=
  ⟨rfl,
   c1_allocatable_pointer_mutable_box {} .caller {} none c1Obj {} false
     (Or.inl rfl) rfl⟩

/-- C5: a SignatureBuilder whose interface has already been determined —
because the guard flag is set, in particular after any successful
getFunctionType call — fails fatally on both getFunctionType and
getOrCreateFuncOp: the instance is one-shot. -/
theorem c5_signature_builder_one_shot (opts opts0 : LoweringOptions)
    (sb sb0 : SignatureBuilder) (ft : FunctionType)
    (h : sb.interfaceDetermined = true ∨
         SignatureBuilder.getFunctionType opts0 sb0 = .ok (ft, sb)) :
    sb.getFunctionType opts = .error "SignatureBuilder should only be used once" ∧
    sb.getOrCreateFuncOp opts =
      .error "SignatureBuilder should only be used once" := by
  have hdet : sb.interfaceDetermined = true := by
    rcases h with h | h
    · exact h
    · unfold SignatureBuilder.getFunctionType at h
      split at h
      · exact absurd h (by simp)
      · simp only [] at h
        split at h
        · exact absurd h (by simp)
        · have := (Except.ok.injEq _ _).mp h
          have hsb := congrArg Prod.snd this
          simp only [] at hsb
          rw [← hsb]
  constructor
  · unfold SignatureBuilder.getFunctionType
    simp [hdet]
  · unfold SignatureBuilder.getOrCreateFuncOp
    simp [hdet]

theorem c5_signature_builder_one_shot_witness :
    ({ proc := {}, interfaceDetermined := true } :
        SignatureBuilder).interfaceDetermined = true ∧
    SignatureBuilder.getFunctionType {}
        { proc := {}, interfaceDetermined := true } =
      .error "SignatureBuilder should only be used once" :=
  ⟨rfl,
   (c5_signature_builder_one_shot {} {}
      { proc := {}, interfaceDetermined := true }
      { proc := {} } {} (Or.inl rfl)).1⟩

/-- C8 counterexample: a function with an implicit interface whose result
is a derived vector type gets its one Value output, but the caller-must-
allocate-and-save flag stays unset, contradicting the claim that the flag
is set for every derived-type implicit result. -/
def c8Type : DynamicType :=
  { category := .derived, kind := 0,
    derivedSpec := some { name := "vecty", isVectorType := true } }

/-- The procedure of the C8 counterexample: implicit interface, derived
vector result, no dummy arguments. -/
def c8Proc : Procedure :=
  { functionResult := some (.typeAndShape { type := c8Type } {}),
    hasExplicitInterface := false }

theorem c8_save_result_counterexample :
    c8Proc.canBeCalledViaImplicitInterface = true ∧
    c8Type.category = TypeCategory.derived ∧
    (buildImplicitInterface {} .caller false c8Proc [] {}).map
        CallInterfaceState.saveResult = .ok false ∧
    (buildImplicitInterface {} .caller false c8Proc [] {}).map
        (fun st => st.outputs.length) = .ok 1 :=
  ⟨rfl, rfl, rfl, rfl⟩

/-- C8 amended: for a function with an implicit interface whose result is of
derived type, the builder emits exactly one Value output slot of the
translated physical type; the caller-must-allocate-and-save flag is set
unless the derived type is a vector type (vector-typed results are returned
without the save step). -/
theorem c8_derived_result_amended (st : CallInterfaceState)
    (ts : TypeAndShape) (rattrs : ResultAttrs) (isBindC : Bool)
    (hd : ts.type.category = .derived) :
    (handleImplicitResult st (.typeAndShape ts rattrs) isBindC).outputs =
      st.outputs ++ [⟨translateDynamicType ts.type, .result, .value, []⟩] ∧
    (handleImplicitResult st (.typeAndShape ts rattrs) isBindC).inputs =
      st.inputs ∧
    (handleImplicitResult st (.typeAndShape ts rattrs) isBindC).saveResult =
      (st.saveResult || !ts.type.getDerivedTypeSpec.isVectorType) := by
  unfold handleImplicitResult
  simp only [hd]
  by_cases hvec : ts.type.getDerivedTypeSpec.isVectorType
  · simp [hvec, addFirResult]
  · simp [hvec, addFirResult, setSaveResult]

theorem c8_derived_result_amended_witness :
    c8Type.category = TypeCategory.derived ∧
    (handleImplicitResult {} (.typeAndShape { type := c8Type } {})
        false).saveResult = (false || !c8Type.getDerivedTypeSpec.isVectorType) :=
  ⟨rfl,
   (c8_derived_result_amended {} { type := c8Type } {} false rfl).2.2⟩

/-- An intent-out allocatable data-object dummy of the given type. -/
def intentOutAllocatable (ts : TypeAndShape) : DummyDataObject :=
  { type := ts, intent := .out, attrs := { allocatable := true } }

/-- C9: an explicit-interface dummy declared allocatable with intent out
and a finalizable derived type is passed MutableBox, is exempt from
intent-out entry finalization (allocatable and pointer dummies never
require it), may not be read by the call, and may be modified by it. -/
theorem c9_allocatable_intent_out (opts : LoweringOptions) (side : SideKind)
    (st : CallInterfaceState) (name : String) (ent : ArgEntity) (isBindC : Bool)
    (ts : TypeAndShape) (spec : DerivedTypeSpec) (obj : DummyDataObject)
    (hobj : obj = intentOutAllocatable ts)
    (hderived : ts.type.category = .derived)
    (hspec : ts.type.derivedSpec = some spec)
    (hfinal : spec.isFinalizable = true)
    (hcorank : ts.corank = 0) :
    ∃ st',
      handleExplicitDummy opts side st (some (.dataObject name obj)) obj ent
          isBindC = .ok st' ∧
      ∃ pe, st'.passedArguments = st.passedArguments ++ [pe] ∧
        pe.passBy = .mutableBox ∧
        pe.mayRequireIntentoutFinalization = false ∧
        pe.mayBeReadByCall = false ∧
        pe.mayBeModifiedByCall = true := by
  subst hobj
  obtain ⟨boxTy, heq⟩ := c1_allocatable_pointer_mutable_box opts side st
    (some (.dataObject name (intentOutAllocatable ts)))
    (intentOutAllocatable ts) ent isBindC (Or.inl rfl) hcorank
  refine ⟨_, heq, ⟨_, rfl, rfl, ?_, ?_, ?_⟩⟩
  · simp [PassedEntity.mayRequireIntentoutFinalization,
      PassedEntity.isIntentOut, DummyArgument.getIntent, intentOutAllocatable]
  · simp [PassedEntity.mayBeReadByCall, DummyArgument.getIntent,
      intentOutAllocatable]
  · simp [PassedEntity.mayBeModifiedByCall, DummyArgument.getIntent,
      PassedEntity.hasValueAttribute, intentOutAllocatable]

/-- The concrete finalizable derived type of the C9 witness. -/
def c9Spec : DerivedTypeSpec := { name := "finaltype", isFinalizable := true }

/-- The concrete dummy type of the C9 witness. -/
def c9Ts : TypeAndShape :=
  { type := { category := .derived, derivedSpec := some c9Spec } }

theorem c9_allocatable_intent_out_witness :
    c9Spec.isFinalizable = true ∧
    (∃ st',
      handleExplicitDummy {} .caller {}
          (some (.dataObject "a" (intentOutAllocatable c9Ts)))
          (intentOutAllocatable c9Ts) {} false = .ok st' ∧
      ∃ pe, st'.passedArguments = [] ++ [pe] ∧
        pe.passBy = .mutableBox ∧
        pe.mayRequireIntentoutFinalization = false ∧
        pe.mayBeReadByCall = false ∧
        pe.mayBeModifiedByCall = true) :=
  ⟨rfl,
   c9_allocatable_intent_out {} .caller {} "a" {} false c9Ts c9Spec
     (intentOutAllocatable c9Ts) rfl rfl rfl rfl rfl⟩

/-- C7: a dummy procedure that is not a procedure pointer is passed as one
single slot; the slot is the address-and-length tuple with mode
CharacterProcedureTuple exactly when the dummy procedure result type is
character (which is what mustPassLengthWithDummyProcedure tests), and a
plain BaseAddress boxproc slot otherwise. -/
theorem c7_char_dummy_procedure_tuple (opts : LoweringOptions)
    (st : CallInterfaceState) (ch : Option DummyArgument)
    (proc : DummyProcedure) (ent : ArgEntity)
    (hp : proc.pointer = false) :
    (mustPassLengthWithDummyProcedure proc.procedure = true ↔
      ∃ dt, proc.procedure.getResultDynamicType = some dt ∧
        dt.category = .character) ∧
    handleImplicitDummyProc opts st ch proc ent =
      .ok (if mustPassLengthWithDummyProcedure proc.procedure then
        { st with
          inputs := st.inputs ++
            [⟨getCharacterProcedureTupleType getProcedureDesignatorType,
              .arg st.passedArguments.length, .charProcTuple, ["fir.char_proc"]⟩],
          passedArguments := st.passedArguments ++
            [{ passBy := .charProcTuple, entity := some ent, characteristics := ch }] }
      else
        { st with
          inputs := st.inputs ++
            [⟨getProcedureDesignatorType, .arg st.passedArguments.length,
              .baseAddress, []⟩],
          passedArguments := st.passedArguments ++
            [{ passBy := .baseAddress, entity := some ent, characteristics := ch }] }) := by
  constructor
  · unfold mustPassLengthWithDummyProcedure
    constructor
    · intro h
      match hres : proc.procedure.getResultDynamicType with
      | some dt =>
        rw [hres] at h
        exact ⟨dt, rfl, by simpa using h⟩
      | none => rw [hres] at h; exact absurd h (by simp)
    · rintro ⟨dt, hres, hcat⟩
      rw [hres]
      simp [hcat]
  · unfold handleImplicitDummyProc
    rw [hp]
    by_cases hmust : mustPassLengthWithDummyProcedure proc.procedure
    · have hsome : proc.procedure.getResultDynamicType.isSome = true := by
        unfold mustPassLengthWithDummyProcedure at hmust
        match hres : proc.procedure.getResultDynamicType with
        | some _ => rfl
        | none => rw [hres] at hmust; exact absurd hmust (by simp)
      simp [hsome, hmust]
      rfl
    · simp only [hmust]
      simp [hmust]
      rfl

/-- The concrete character-result dummy procedure of the C7 witness. -/
def c7Proc : DummyProcedure :=
  { procedure := { functionResult := some (.typeAndShape
      { type := { category := .character, kind := 1 } } {}) } }

theorem c7_char_dummy_procedure_tuple_witness :
    c7Proc.pointer = false ∧
    ((mustPassLengthWithDummyProcedure c7Proc.procedure = true ↔
      ∃ dt, c7Proc.procedure.getResultDynamicType = some dt ∧
        dt.category = .character) ∧
    handleImplicitDummyProc {} {} none c7Proc {} =
      .ok (if mustPassLengthWithDummyProcedure c7Proc.procedure then
        { ({} : CallInterfaceState) with
          inputs := [] ++
            [⟨getCharacterProcedureTupleType getProcedureDesignatorType,
              .arg 0, .charProcTuple, ["fir.char_proc"]⟩],
          passedArguments := [] ++
            [{ passBy := .charProcTuple, entity := some ({} : ArgEntity), characteristics := none }] }
      else
        { ({} : CallInterfaceState) with
          inputs := [] ++
            [⟨getProcedureDesignatorType, .arg 0, .baseAddress, []⟩],
          passedArguments := [] ++
            [{ passBy := .baseAddress, entity := some ({} : ArgEntity), characteristics := none }] })) :=
  ⟨rfl, c7_char_dummy_procedure_tuple {} {} none c7Proc {} rfl⟩

/-! ## The argument loop only appends argument-owned input slots -/

/-- Relation between a state and any state the argument loop reaches from
it: outputs, save flag and result record are unchanged and the inputs are
extended by argument-owned slots only. -/
def ArgExtension (s s' : CallInterfaceState) : Prop :=
  s'.outputs = s.outputs ∧ s'.saveResult = s.saveResult ∧
  s'.passedResult = s.passedResult ∧
  ∃ extra, s'.inputs = s.inputs ++ extra ∧
    ∀ ph ∈ extra, ph.passedEntityPosition ≠ EntityPos.result

theorem argExtension_rfl (s : CallInterfaceState) : ArgExtension s s :=
  ⟨rfl, rfl, rfl, [], by simp, by simp⟩

theorem argExtension_trans {s s' s'' : CallInterfaceState}
    (h1 : ArgExtension s s') (h2 : ArgExtension s' s'') : ArgExtension s s'' := by
  obtain ⟨o1, v1, r1, e1, i1, f1⟩ := h1
  obtain ⟨o2, v2, r2, e2, i2, f2⟩ := h2
  refine ⟨o2.trans o1, v2.trans v1, r2.trans r1, e1 ++ e2, ?_, ?_⟩
  · rw [i2, i1, List.append_assoc]
  · intro ph hph
    rcases List.mem_append.mp hph with hm | hm
    · exact f1 ph hm
    · exact f2 ph hm

/-- Appending one slot at the next passed-argument position together with
its passed entity is an argument-owned extension. -/
theorem argExtension_step (st : CallInterfaceState) (ty : MType)
    (prop : Property) (attrs : List String) (p : PassEntityBy)
    (e : Option ArgEntity) (ch : Option DummyArgument) :
    ArgExtension st
      (addPassedArg (addFirOperand st ty (nextPassedArgPosition st) prop attrs)
        p e ch) := by
  refine ⟨rfl, rfl, rfl, [⟨ty, nextPassedArgPosition st, prop, attrs⟩], ?_, ?_⟩
  · simp [addPassedArg, addFirOperand]
  · simp [nextPassedArgPosition]

theorem handleImplicitDummyObj_ext (side : SideKind) (st : CallInterfaceState)
    (ch : Option DummyArgument) (obj : DummyDataObject) (ent : ArgEntity) :
    ArgExtension st (handleImplicitDummyObj side st ch obj ent) := by
  unfold handleImplicitDummyObj
  simp only []
  split_ifs <;> exact argExtension_step _ _ _ _ _ _ _

theorem handleImplicitDummyProc_ext (opts : LoweringOptions)
    (st : CallInterfaceState) (ch : Option DummyArgument)
    (proc : DummyProcedure) (ent : ArgEntity) (st' : CallInterfaceState)
    (h : handleImplicitDummyProc opts st ch proc ent = .ok st') :
    ArgExtension st st' := by
  unfold handleImplicitDummyProc at h
  split at h
  · exact absurd h (by simp)
  · simp only [] at h
    split at h
    · rw [Except.ok.injEq] at h
      rw [← h]
      exact argExtension_step _ _ _ _ _ _ _
    · split at h <;>
      · rw [Except.ok.injEq] at h
        rw [← h]
        exact argExtension_step _ _ _ _ _ _ _

theorem implicitDummyStep_ext (opts : LoweringOptions) (side : SideKind)
    (st : CallInterfaceState) (pair : DummyArgument × ArgEntity)
    (st' : CallInterfaceState)
    (h : implicitDummyStep opts side st pair = .ok st') : ArgExtension st st' := by
  unfold implicitDummyStep at h
  rcases pair with ⟨d, e⟩
  match d with
  | .dataObject nm obj =>
    simp only [Except.ok.injEq] at h
    rw [← h]
    exact handleImplicitDummyObj_ext _ _ _ _ _
  | .procedure nm p => exact handleImplicitDummyProc_ext _ _ _ _ _ _ h
  | .alternateReturn =>
    simp only [Except.ok.injEq] at h
    rw [← h]
    exact argExtension_rfl _

theorem implicitLoop_ext (opts : LoweringOptions) (side : SideKind)
    (pairs : List (DummyArgument × ArgEntity)) (st st' : CallInterfaceState)
    (h : pairs.foldlM (implicitDummyStep opts side) st = .ok st') :
    ArgExtension st st' := by
  induction pairs generalizing st with
  | nil =>
    simp only [List.foldlM_nil] at h
    have h' : Except.ok st = Except.ok st' := h
    rw [Except.ok.injEq] at h'
    rw [← h']
    exact argExtension_rfl _
  | cons p rest ih =>
    rw [List.foldlM_cons] at h
    cases hstep : implicitDummyStep opts side st p with
    | error e =>
      rw [hstep] at h
      have h' : (Except.error e : Except String CallInterfaceState) = .ok st' := h
      exact absurd h' (by simp)
    | ok s1 =>
      rw [hstep] at h
      have hrest : rest.foldlM (implicitDummyStep opts side) s1 = .ok st' := h
      exact argExtension_trans (implicitDummyStep_ext _ _ _ _ _ hstep) (ih _ hrest)

/-- C2: a function with a (non-interoperable) implicit interface and a
character-typed result gets exactly two hidden input slots for the result,
the character address then the length, owned by the result entity with
passing mode AddressAndLength, plus the one packed boxchar output slot;
the caller-must-allocate-and-save flag stays unset. -/
theorem c2_implicit_character_result (opts : LoweringOptions) (side : SideKind)
    (hasAltRet : Bool) (proc : Procedure) (entities : List ArgEntity)
    (ts : TypeAndShape) (rattrs : ResultAttrs) (st' : CallInterfaceState)
    (hres : proc.functionResult = some (.typeAndShape ts rattrs))
    (hchar : ts.type.category = .character)
    (himpl : proc.canBeCalledViaImplicitInterface = true)
    (hok : buildImplicitInterface opts side hasAltRet proc entities {} = .ok st') :
    st'.inputs.filter (fun ph => ph.passedEntityPosition == EntityPos.result) =
      [⟨.ref false (.char ts.type.kind ts.type.knownLength), .result,
        .charAddress, []⟩, ⟨.index, .result, .charLength, []⟩] ∧
    st'.inputs.take 2 =
      [⟨.ref false (.char ts.type.kind ts.type.knownLength), .result,
        .charAddress, []⟩, ⟨.index, .result, .charLength, []⟩] ∧
    st'.outputs = [⟨.boxchar ts.type.kind, .result, .boxChar, []⟩] ∧
    st'.passedResult = some { passBy := .addressAndLength } ∧
    st'.saveResult = false := by
  have hbindc : proc.bindC = false := bindC_eq_false_of_implicit proc himpl
  unfold buildImplicitInterface at hok
  rw [hres] at hok
  simp only [] at hok
  have hst0 : handleImplicitResult {} (.typeAndShape ts rattrs) proc.bindC =
      { inputs := [⟨.ref false (.char ts.type.kind ts.type.knownLength),
          .result, .charAddress, []⟩, ⟨.index, .result, .charLength, []⟩],
        outputs := [⟨.boxchar ts.type.kind, .result, .boxChar, []⟩],
        passedArguments := [],
        passedResult := some { passBy := .addressAndLength },
        saveResult := false } := by
    unfold handleImplicitResult
    simp [hchar, hbindc, handleImplicitCharacterResult, setPassedResult,
      addFirOperand, addFirResult]
  rw [hst0] at hok
  obtain ⟨hout, hsave, hpres, extra, hin, hext⟩ :=
    implicitLoop_ext opts side _ _ _ hok
  have hfilterExtra : extra.filter
      (fun ph => ph.passedEntityPosition == EntityPos.result) = [] := by
    rw [List.filter_eq_nil_iff]
    intro ph hph
    simpa using hext ph hph
  refine ⟨?_, ?_, by simpa using hout, by simpa using hpres, by simpa using hsave⟩
  · rw [hin]
    simp [List.filter_append, hfilterExtra]
  · rw [hin]
    simp

/-- The concrete procedure of the C2 witness: character result, one integer
dummy. -/
def c2Proc : Procedure :=
  { functionResult := some (.typeAndShape
      { type := { category := .character, kind := 1, knownLength := some 5 } } {}),
    dummyArguments := [.dataObject "x" { type := { type := { category := .integer } } }],
    hasExplicitInterface := false }

/-- The state built for the C2 witness call. -/
def c2State : CallInterfaceState :=
  ((buildImplicitInterface {} .caller false c2Proc [{}] {}).toOption).getD {}

theorem c2_implicit_character_result_witness :
    c2Proc.canBeCalledViaImplicitInterface = true ∧
    (c2State.inputs.filter
        (fun ph => ph.passedEntityPosition == EntityPos.result) =
      [⟨.ref false (.char 1 (some 5)), .result, .charAddress, []⟩,
       ⟨.index, .result, .charLength, []⟩] ∧
     c2State.inputs.take 2 =
      [⟨.ref false (.char 1 (some 5)), .result, .charAddress, []⟩,
       ⟨.index, .result, .charLength, []⟩] ∧
     c2State.outputs = [⟨.boxchar 1, .result, .boxChar, []⟩] ∧
     c2State.passedResult = some { passBy := .addressAndLength } ∧
     c2State.saveResult = false) :=
  ⟨rfl,
   c2_implicit_character_result {} .caller false c2Proc [{}]
     { type := { category := .character, kind := 1, knownLength := some 5 } } {}
     c2State rfl rfl rfl rfl⟩

/-! ## Caller-side recharacterization -/

/-- One rebuilt dummy per present actual argument: a missing argument
contributes nothing, an alternate-return actual contributes the
alternate-return marker, an expression contributes the implicit form of its
from-actual characteristic. -/
def rebuildFromActual : Option ActualArgument → Option DummyArgument
  | none => none
  | some .alternateReturn => some .alternateReturn
  | some (.expr ch) => some (asImplicitArg ch)

theorem rebuild_foldl_eq_filterMap (actuals : List (Option ActualArgument))
    (acc : List DummyArgument) :
    actuals.foldl (fun acc arg =>
      match arg with
      | none => acc
      | some .alternateReturn => acc ++ [DummyArgument.alternateReturn]
      | some (.expr ch) => acc ++ [asImplicitArg ch]) acc =
    acc ++ actuals.filterMap rebuildFromActual := by
  induction actuals generalizing acc with
  | nil => simp
  | cons a rest ih =>
    cases a with
    | none => simp [rebuildFromActual, ih]
    | some aa =>
      cases aa with
      | alternateReturn => simp [rebuildFromActual, ih]
      | expr ch => simp [rebuildFromActual, ih]

theorem length_filterMap_rebuild (actuals : List (Option ActualArgument)) :
    (actuals.filterMap rebuildFromActual).length =
      (actuals.filter Option.isSome).length := by
  induction actuals with
  | nil => rfl
  | cons a rest ih =>
    cases a with
    | none => simp [rebuildFromActual, ih]
    | some aa => cases aa <;> simp [rebuildFromActual, ih]

/-- C3: when the call target has no explicit interface, or (under
high-level FIR lowering) is defined in the same compilation unit and can be
called via an implicit interface, characterize discards the definition
dummy characteristics and rebuilds exactly one dummy per present actual
argument, in actual-argument order, with alternate-return actuals becoming
alternate-return markers, and a data object whose shape attributes are not
all clear has its shape flattened to a rank-only explicit shape. -/
theorem c3_characterize_rebuilds_from_actuals (opts : LoweringOptions)
    (defCh : Procedure) (sameUnit : Bool)
    (actuals : List (Option ActualArgument)) (name : String)
    (obj : DummyDataObject)
    (hcond : defCh.hasExplicitInterface = false ∨
      (opts.lowerToHighLevelFIR = true ∧ sameUnit = true ∧
       defCh.canBeCalledViaImplicitInterface = true)) :
    (characterize opts defCh sameUnit actuals).dummyArguments =
      actuals.filterMap rebuildFromActual ∧
    characterize opts defCh sameUnit actuals =
      characterize opts { defCh with dummyArguments := [] } sameUnit actuals ∧
    (characterize opts defCh sameUnit actuals).dummyArguments.length =
      (actuals.filter Option.isSome).length ∧
    rebuildFromActual (some .alternateReturn) = some .alternateReturn ∧
    (obj.type.attrs.anyAttr = true →
      asImplicitArg (.dataObject name obj) =
        .dataObject name { type := { type := obj.type.type, shape := some (List.replicate obj.type.rank none) } }) := by
  have hb : (!defCh.hasExplicitInterface ||
      (opts.lowerToHighLevelFIR && sameUnit &&
       defCh.canBeCalledViaImplicitInterface)) = true := by
    rcases hcond with h | ⟨h1, h2, h3⟩
    · simp [h]
    · simp [h1, h2, h3]
  have hb2 : (!(({ defCh with dummyArguments := [] } :
        Procedure).hasExplicitInterface) ||
      (opts.lowerToHighLevelFIR && sameUnit &&
       ({ defCh with dummyArguments := [] } :
        Procedure).canBeCalledViaImplicitInterface)) = true := by
    rcases hcond with h | ⟨h1, h2, h3⟩
    · simp [h]
    · unfold Procedure.canBeCalledViaImplicitInterface at h3 ⊢
      rcases Bool.and_eq_true_iff.mp h3 with ⟨habc, _⟩
      simp [h1, h2, habc]
  have h1 : (characterize opts defCh sameUnit actuals).dummyArguments =
      actuals.filterMap rebuildFromActual := by
    simp only [characterize, hb, if_true]
    simpa using rebuild_foldl_eq_filterMap actuals []
  refine ⟨h1, ?_, ?_, rfl, ?_⟩
  · simp only [characterize, hb, hb2, if_true]
  · rw [h1]
    exact length_filterMap_rebuild actuals
  · intro hattr
    simp [asImplicitArg, asImplicitArgObj, hattr]

/-- The actual-argument list of the C3 witness: one missing argument, one
alternate return, one assumed-shape array expression. -/
def c3Actuals : List (Option ActualArgument) :=
  [none, some .alternateReturn,
   some (.expr (.dataObject "actual"
     { type := { type := { category := .real },
                 shape := some [none, none],
                 attrs := { assumedShape := true } } }))]

/-- The definition-side characteristic of the C3 witness, with a dummy list
that must be discarded. -/
def c3DefProc : Procedure :=
  { dummyArguments := [.dataObject "olddummy" { type := { type := { category := .logical } } }],
    hasExplicitInterface := false }

/-- The data object of the C3 witness flattening conjunct. -/
def c3Obj : DummyDataObject :=
  { type := { type := { category := .real },
              shape := some [none, none],
              attrs := { assumedShape := true } } }

theorem c3_characterize_rebuilds_from_actuals_witness :
    c3DefProc.hasExplicitInterface = false ∧
    ((characterize {} c3DefProc false c3Actuals).dummyArguments =
      c3Actuals.filterMap rebuildFromActual ∧
    characterize {} c3DefProc false c3Actuals =
      characterize {} { c3DefProc with dummyArguments := [] } false c3Actuals ∧
    (characterize {} c3DefProc false c3Actuals).dummyArguments.length =
      (c3Actuals.filter Option.isSome).length ∧
    rebuildFromActual (some .alternateReturn) = some .alternateReturn ∧
    (c3Obj.type.attrs.anyAttr = true →
      asImplicitArg (.dataObject "a" c3Obj) =
        .dataObject "a" { type := { type := c3Obj.type.type, shape := some (List.replicate c3Obj.type.rank none) } })) :=
  ⟨rfl,
   c3_characterize_rebuilds_from_actuals {} c3DefProc false c3Actuals "a" c3Obj
     (Or.inl rfl)⟩

end CallInterfaceModel
